import Mathlib

/-!
Verification development for a multi-tenant SaaS backend (trial lifecycle,
subscription state machine, delayed trial-expiration job, authentication).

The definitions below are a shallow embedding of the TypeScript sources:
timestamps are modelled as `Int` milliseconds since the epoch, `Date` values
as `Int`, optional fields as `Option`, thrown errors as `Except AppErr`,
and the MongoDB stores as Lean lists of documents.  External collaborators
(bcrypt, sha256, TOTP, the payment provider network calls, the BullMQ queue)
are modelled at their interface boundary: hashing as injective tagging,
provider call outcomes as explicit `Except` parameters, and the queue as a
list of jobs with BullMQ job-id semantics (an add with an explicit job id is
deduplicated against pending jobs with the same id; an add without an id
receives a fresh auto-generated id).
-/

namespace SaasKit

/-- Error taxonomy of src/errors (AppError subclasses), plus `generic` for a
plain thrown `Error` (which the global handler maps to HTTP 500, unlike the
AppError subclasses which carry their own status codes). -/
inductive AppErr where
  | badRequest (msg : String)
  | unauthorized (msg : String)
  | forbidden (msg : String)
  | notFound (msg : String)
  | conflict (msg : String)
  | generic (msg : String)
deriving DecidableEq, Repr

/-- True exactly for the ConflictError constructor. -/
def AppErr.isConflict : AppErr → Bool
  | .conflict _ => true
  | _ => false

/-- True exactly for the UnauthorizedError constructor. -/
def AppErr.isUnauthorized : AppErr → Bool
  | .unauthorized _ => true
  | _ => false

/-- User roles, from the User model. -/
inductive Role where
  | owner
  | admin
  | member
deriving DecidableEq, Repr

/-- Plan tiers, from subscription.model.ts. -/
inductive PlanType where
  | free
  | pro
  | enterprise
deriving DecidableEq, Repr

/-- Subscription statuses, from subscription.model.ts. -/
inductive SubStatus where
  | active
  | cancelled
  | pastDue
  | trialing
  | expired
deriving DecidableEq, Repr

/-- Account statuses, from account.model.ts. -/
inductive AccStatus where
  | active
  | suspended
  | cancelled
deriving DecidableEq, Repr

/-- String lowercasing (String.prototype.toLowerCase on the ASCII emails and
provider names in play), written over the character list so that it reduces
definitionally. -/
def lowerStr (s : String) : String := String.mk (s.data.map Char.toLower)

/-- Milliseconds in a day, the constant 1000*60*60*24 used by
Account.getTrialDaysRemaining. -/
def msPerDay : Int := 86400000

/-- TRIAL_DAYS configuration default (config/index.ts). -/
def trialDays : Int := 14

/-- Exact integer ceiling of a / b for b > 0, modelling
Math.ceil(diffTime / 86400000) on exact arithmetic. -/
def ceilDiv (a b : Int) : Int := (a + b - 1) / b

/-- Account entity (account.model.ts).  Timestamps are Int milliseconds. -/
structure Account where
  id : String
  name : String
  subdomain : Option String
  plan : PlanType
  status : AccStatus
  isTrial : Bool
  trialStartDate : Option Int
  trialEndDate : Option Int
  createdAt : Int
  updatedAt : Int
deriving DecidableEq, Repr

/-- Account.isTrialActive(): true iff isTrial, trialEndDate set, and
now < trialEndDate.  The implicit `new Date()` is passed as `now`. -/
def Account.isTrialActive (a : Account) (now : Int) : Bool :=
  match a.trialEndDate with
  | none => false
  | some e => if a.isTrial then decide (now < e) else false

/-- Account.isTrialExpired(): true iff isTrial, trialEndDate set, and
now >= trialEndDate. -/
def Account.isTrialExpired (a : Account) (now : Int) : Bool :=
  match a.trialEndDate with
  | none => false
  | some e => if a.isTrial then decide (e ≤ now) else false

/-- Account.getTrialDaysRemaining(): max(0, ceil((trialEnd - now) / day)),
and 0 when not on trial or when the end date is absent. -/
def Account.getTrialDaysRemaining (a : Account) (now : Int) : Int :=
  match a.trialEndDate with
  | none => 0
  | some e => if a.isTrial then max 0 (ceilDiv (e - now) msPerDay) else 0

/-- Plan feature set (subscription.model.ts PlanFeatures). -/
structure PlanFeatures where
  itemsPerMonth : Int
  exportOptions : List String
  prioritySupport : Bool
deriving DecidableEq, Repr

/-- Subscription.getDefaultFeatures, the plan-to-features table. -/
def getDefaultFeatures : PlanType → PlanFeatures
  | .free => { itemsPerMonth := 5, exportOptions := ["pdf"], prioritySupport := false }
  | .pro => { itemsPerMonth := 50, exportOptions := ["pdf", "png", "svg"], prioritySupport := true }
  | .enterprise => { itemsPerMonth := -1, exportOptions := ["pdf", "png", "svg"], prioritySupport := true }

/-- Subscription entity (subscription.model.ts). -/
structure Subscription where
  id : String
  accountId : String
  planType : PlanType
  status : SubStatus
  currentPeriodStart : Int
  currentPeriodEnd : Int
  cancelAtPeriodEnd : Bool
  cancelledAt : Option Int
  features : PlanFeatures
  paymentProvider : String
  providerSubscriptionId : Option String
  createdAt : Int
  updatedAt : Int
deriving DecidableEq, Repr

/-- SubscriptionRepository.findByAccountId over the modelled store. -/
def findSubByAccountId (subs : List Subscription) (accountId : String) : Option Subscription :=
  subs.find? (fun s => s.accountId = accountId)

/-- SubscriptionRepository.findById over the modelled store. -/
def findSubById (subs : List Subscription) (id : String) : Option Subscription :=
  subs.find? (fun s => s.id = id)

/-- SubscriptionRepository.update: apply an in-place field update to the
subscription with the given id (findByIdAndUpdate with new true). -/
def updateSubList (subs : List Subscription) (id : String)
    (f : Subscription → Subscription) : List Subscription :=
  subs.map (fun s => if s.id = id then f s else s)

/-- The provider names registered in PaymentProviderFactory: only stripe is
registered at module load; the paypal/razorpay registrations are commented
out in the source. -/
def registeredProviders : List String := ["stripe"]

/-- PaymentProviderFactory.getProvider, reduced to its observable effect on
control flow: ok when the (lowercased) name is registered, otherwise the
thrown plain Error. -/
def getProviderCheck (providerName : String) : Except AppErr Unit :=
  if registeredProviders.contains (lowerStr providerName) then Except.ok ()
  else Except.error (AppErr.generic ("Payment provider " ++ providerName ++ " is not registered"))

/-- Normalized result of a provider createSubscription call (§6 contract). -/
structure ProviderCreateResult where
  subscriptionId : String
  customerId : String
  status : SubStatus
  currentPeriodStart : Int
  currentPeriodEnd : Int
deriving DecidableEq, Repr

/-- Normalized result of a provider updateSubscription call. -/
structure ProviderUpdateResult where
  status : SubStatus
  currentPeriodStart : Int
  currentPeriodEnd : Int
deriving DecidableEq, Repr

/-- Normalized result of a provider resumeSubscription call. -/
structure ProviderResumeResult where
  status : SubStatus
  cancelAtPeriodEnd : Bool
deriving DecidableEq, Repr

/-- SubscriptionService.createSubscription.  The outcome of the external
provider call (network I/O) is passed in as `providerCall`; the source wraps
both getProvider and the provider call in one try/catch whose failure falls
back to local creation, so the attempted result collapses to an Option.
Returns the created subscription, the new store, and the next fresh-id
counter (MongoDB ObjectId generation is modelled by a counter). -/
def createSubscription (subs : List Subscription) (nextSubId : Nat)
    (accountId : String) (planType : PlanType) (paymentProvider : String)
    (skipProvider : Bool) (providerCall : Except AppErr ProviderCreateResult)
    (now : Int) : Except AppErr (Subscription × List Subscription × Nat) :=
  match findSubByAccountId subs accountId with
  | some _ => Except.error (AppErr.conflict "Account already has a subscription")
  | none =>
    let providerResult : Option ProviderCreateResult :=
      if skipProvider then none
      else
        match (do
          let _ ← getProviderCheck paymentProvider
          providerCall : Except AppErr ProviderCreateResult) with
        | Except.ok r => some r
        | Except.error _ => none
    let sub : Subscription :=
      { id := "sub" ++ toString nextSubId
        accountId := accountId
        planType := planType
        status := match providerResult with
          | some r => r.status
          | none => SubStatus.trialing
        currentPeriodStart := match providerResult with
          | some r => r.currentPeriodStart
          | none => now
        currentPeriodEnd := match providerResult with
          | some r => r.currentPeriodEnd
          | none => now
        cancelAtPeriodEnd := false
        cancelledAt := none
        features := getDefaultFeatures planType
        paymentProvider := if skipProvider then "local" else paymentProvider
        providerSubscriptionId := providerResult.map (fun r => r.subscriptionId)
        createdAt := now
        updatedAt := now }
    Except.ok (sub, subs ++ [sub], nextSubId + 1)

/-- SubscriptionService.updatePlan.  Looks the subscription up by id,
resolves the payment provider for its stored provider name (this throws for
an unregistered name such as the local sentinel), then either adopts the
provider update result (when a provider subscription id is linked, with the
external call outcome passed as `providerCall`) or updates plan type and
features locally only. -/
def updatePlan (subs : List Subscription) (subscriptionId : String)
    (newPlanType : PlanType) (providerCall : Except AppErr ProviderUpdateResult)
    (now : Int) : Except AppErr (Subscription × List Subscription) :=
  match findSubById subs subscriptionId with
  | none => Except.error (AppErr.notFound ("Subscription with id " ++ subscriptionId ++ " not found"))
  | some sub =>
    match getProviderCheck sub.paymentProvider with
    | Except.error e => Except.error e
    | Except.ok _ =>
      match sub.providerSubscriptionId with
      | some _ =>
        match providerCall with
        | Except.error e => Except.error e
        | Except.ok r =>
          let f : Subscription → Subscription := fun s =>
            { s with planType := newPlanType, status := r.status,
                     currentPeriodStart := r.currentPeriodStart,
                     currentPeriodEnd := r.currentPeriodEnd,
                     features := getDefaultFeatures newPlanType,
                     updatedAt := now }
          Except.ok (f sub, updateSubList subs subscriptionId f)
      | none =>
        let f : Subscription → Subscription := fun s =>
          { s with planType := newPlanType,
                   features := getDefaultFeatures newPlanType,
                   updatedAt := now }
        Except.ok (f sub, updateSubList subs subscriptionId f)

/-- SubscriptionService.resumeSubscription.  The cancelAtPeriodEnd guard
throws ConflictError before the provider is even resolved; afterwards it
either adopts the provider resume result or resumes locally. -/
def resumeSubscription (subs : List Subscription) (subscriptionId : String)
    (providerCall : Except AppErr ProviderResumeResult) (now : Int) :
    Except AppErr (Subscription × List Subscription) :=
  match findSubById subs subscriptionId with
  | none => Except.error (AppErr.notFound ("Subscription with id " ++ subscriptionId ++ " not found"))
  | some sub =>
    if sub.cancelAtPeriodEnd = false then
      Except.error (AppErr.conflict "Subscription is not cancelled")
    else
      match getProviderCheck sub.paymentProvider with
      | Except.error e => Except.error e
      | Except.ok _ =>
        match sub.providerSubscriptionId with
        | some _ =>
          match providerCall with
          | Except.error e => Except.error e
          | Except.ok r =>
            let f : Subscription → Subscription := fun s =>
              { s with status := r.status, cancelAtPeriodEnd := r.cancelAtPeriodEnd,
                       cancelledAt := none, updatedAt := now }
            Except.ok (f sub, updateSubList subs subscriptionId f)
        | none =>
          let f : Subscription → Subscription := fun s =>
            { s with status := SubStatus.active, cancelAtPeriodEnd := false,
                     cancelledAt := none, updatedAt := now }
          Except.ok (f sub, updateSubList subs subscriptionId f)

/-- A stored user document (the shape of IUser as persisted; the claims
quantify over arbitrary stored values of the MFA and reset fields). -/
structure UserDoc where
  id : String
  accountId : String
  email : String
  password : String
  role : Role
  firstName : Option String
  lastName : Option String
  company : Option String
  phone : Option String
  profilePicture : Option String
  onboardingCompleted : Bool
  passwordResetToken : Option String
  passwordResetExpires : Option Int
  mfaEnabled : Option Bool
  mfaSecret : Option String
  createdAt : Int
  updatedAt : Int
deriving DecidableEq, Repr

/-- The domain User model (account.model.ts User class).  The constructor
defaults mfaEnabled to false and leaves the optional security fields
undefined when they are not supplied. -/
structure User where
  id : String
  accountId : String
  email : String
  password : String
  role : Role
  firstName : Option String
  lastName : Option String
  company : Option String
  phone : Option String
  profilePicture : Option String
  onboardingCompleted : Bool
  passwordResetToken : Option String
  passwordResetExpires : Option Int
  mfaEnabled : Bool
  mfaSecret : Option String
  createdAt : Int
  updatedAt : Int
deriving DecidableEq, Repr

/-- UserRepository.documentToModel: constructs a User from the listed
document fields only.  The mfa and password-reset fields are not passed, so
the User constructor defaults apply: mfaEnabled becomes false and mfaSecret,
passwordResetToken, passwordResetExpires stay undefined, whatever the stored
document holds. -/
def documentToModel (doc : UserDoc) : User :=
  { id := doc.id
    accountId := doc.accountId
    email := doc.email
    password := doc.password
    role := doc.role
    firstName := doc.firstName
    lastName := doc.lastName
    company := doc.company
    phone := doc.phone
    profilePicture := doc.profilePicture
    onboardingCompleted := doc.onboardingCompleted
    passwordResetToken := none
    passwordResetExpires := none
    mfaEnabled := false
    mfaSecret := none
    createdAt := doc.createdAt
    updatedAt := doc.updatedAt }

/-- The user collection plus a fresh-id counter standing in for ObjectId
generation. -/
structure UserStore where
  docs : List UserDoc
  nextUid : Nat
deriving DecidableEq, Repr

/-- UserRepository.findByEmail queries on the lowercased email. -/
def findUserDocByEmail (store : UserStore) (email : String) : Option UserDoc :=
  store.docs.find? (fun d => d.email = (lowerStr email))

/-- UserRepository.findByEmail, returning the domain model. -/
def findUserByEmail (store : UserStore) (email : String) : Option User :=
  (findUserDocByEmail store email).map documentToModel

/-- UserRepository.findById (ObjectId validity aside, a lookup by id). -/
def findUserDocById (store : UserStore) (id : String) : Option UserDoc :=
  store.docs.find? (fun d => d.id = id)

/-- UserRepository.findById, returning the domain model. -/
def findUserById (store : UserStore) (id : String) : Option User :=
  (findUserDocById store id).map documentToModel

/-- UserRepository.findAll, returning domain models. -/
def findAllUsers (store : UserStore) : List User :=
  store.docs.map documentToModel

/-- Modelled from the spec: UserRepository.findByPasswordResetToken is
called by AuthService.resetPassword but is absent from the sources (only
its caller exists).  Per §4.4 the reset flow looks the user up by the
matching stored token hash; the spec leaves a repository-level expiry check
as an open question and shows none, so none is modelled. -/
def findUserDocByResetToken (store : UserStore) (tokenHash : String) : Option UserDoc :=
  store.docs.find? (fun d => d.passwordResetToken = some tokenHash)

/-- The entity argument of UserRepository.create as used by the auth flows
(register passes no mfa or reset fields, so the created document stores
none of them). -/
structure UserCreate where
  accountId : String
  email : String
  password : String
  role : Role
  firstName : Option String
  lastName : Option String
  createdAt : Int
  updatedAt : Int
deriving DecidableEq, Repr

/-- UserRepository.create: duplicate-email check (ConflictError), then the
document is stored with the email lowercased and a fresh id. -/
def createUser (store : UserStore) (c : UserCreate) : Except AppErr (User × UserStore) :=
  match findUserDocByEmail store c.email with
  | some _ => Except.error (AppErr.conflict ("User with email " ++ c.email ++ " already exists"))
  | none =>
    let doc : UserDoc :=
      { id := "u" ++ toString store.nextUid
        accountId := c.accountId
        email := lowerStr c.email
        password := c.password
        role := c.role
        firstName := c.firstName
        lastName := c.lastName
        company := none
        phone := none
        profilePicture := none
        onboardingCompleted := false
        passwordResetToken := none
        passwordResetExpires := none
        mfaEnabled := none
        mfaSecret := none
        createdAt := c.createdAt
        updatedAt := c.updatedAt }
    Except.ok (documentToModel doc, { docs := store.docs ++ [doc], nextUid := store.nextUid + 1 })

/-- A field update as passed to UserRepository.update by the auth flows.
For the optional reset fields, the outer Option distinguishes keys absent
from the update object, and the inner Option models an explicit undefined,
which clears the stored field (the persistence collaborator of §6 is taken
at its contract: set-or-clear by key). -/
structure UserUpdate where
  email : Option String
  password : Option String
  passwordResetToken : Option (Option String)
  passwordResetExpires : Option (Option Int)
deriving DecidableEq, Repr

/-- Apply a UserUpdate to a stored document; updatedAt is always refreshed
by UserRepository.update, and an updated email is lowercased. -/
def applyUserUpdate (d : UserDoc) (u : UserUpdate) (now : Int) : UserDoc :=
  { d with
    email := match u.email with
      | some e => lowerStr e
      | none => d.email
    password := u.password.getD d.password
    passwordResetToken := u.passwordResetToken.getD d.passwordResetToken
    passwordResetExpires := u.passwordResetExpires.getD d.passwordResetExpires
    updatedAt := now }

/-- The duplicate-email guard of UserRepository.update: fires when the
update carries an email different from the stored one that some other
stored document already uses. -/
def emailConflictCheck (store : UserStore) (d : UserDoc) (u : UserUpdate) : Bool :=
  match u.email with
  | none => false
  | some e => decide (e ≠ d.email) && (findUserDocByEmail store e).isSome

/-- UserRepository.update: existence check, duplicate-email check when the
email changes, then findByIdAndUpdate with new true. -/
def updateUser (store : UserStore) (id : String) (u : UserUpdate) (now : Int) :
    Except AppErr (User × UserStore) :=
  match findUserDocById store id with
  | none => Except.error (AppErr.notFound ("User with id " ++ id ++ " not found"))
  | some d =>
    if emailConflictCheck store d u then
      Except.error (AppErr.conflict "User with requested email already exists")
    else
      Except.ok (documentToModel (applyUserUpdate d u now),
        { store with docs := store.docs.map (fun x => if x.id = id then applyUserUpdate x u now else x) })

/-- Abstract model of bcrypt hashing: an injective tagging of the plaintext,
so that verification succeeds exactly for the hashed password. -/
def hashPassword (plain : String) : String := "bcrypt:" ++ plain

/-- Abstract model of bcrypt verification against a stored hash. -/
def verifyPassword (plain stored : String) : Bool :=
  stored = hashPassword plain

/-- Abstract model of the sha256 hex digest used for reset tokens: an
injective tagging, standing in for collision resistance. -/
def sha256Hex (s : String) : String := "sha256:" ++ s

/-- TOTP time step of RFC 6238 with the default 30s period. -/
def totpStep (now : Int) : Int := Int.ediv now 30000

/-- Abstract model of the TOTP code for a secret at a time step. -/
def totpCode (secret : String) (step : Int) : String :=
  secret ++ ":" ++ toString step

/-- TotpMfaProvider.verifyCode with window 1: the code is accepted at the
current step or one step either side. -/
def totpVerifyCode (secret code : String) (now : Int) : Bool :=
  code = totpCode secret (totpStep now - 1) ∨
  code = totpCode secret (totpStep now) ∨
  code = totpCode secret (totpStep now + 1)

/-- The claims a session token embeds (generateToken payload); signing is
abstracted away. -/
structure TokenPayload where
  userId : String
  accountId : String
  email : String
  role : Role
deriving DecidableEq, Repr

/-- AccountRepository.findById over the modelled store. -/
def findAccountById (accounts : List Account) (id : String) : Option Account :=
  accounts.find? (fun a => a.id = id)

/-- AccountService.endTrial: update the account with isTrial false (via
AccountRepository.update, which throws NotFoundError on a missing id). -/
def endTrial (accounts : List Account) (accountId : String) (now : Int) :
    Except AppErr (Account × List Account) :=
  match findAccountById accounts accountId with
  | none => Except.error (AppErr.notFound ("Account with id " ++ accountId ++ " not found"))
  | some a =>
    let a2 := { a with isTrial := false, updatedAt := now }
    Except.ok (a2, accounts.map (fun x => if x.id = accountId then { x with isTrial := false, updatedAt := now } else x))

/-- AuthService.loginWithPassword: credential check, conditional MFA check,
account fetch, token issue.  The user value consulted for the MFA branch is
the one returned by UserRepository.findByEmail. -/
def loginWithPassword (users : UserStore) (accounts : List Account)
    (email password mfaCode : Option String) (now : Int) :
    Except AppErr (User × Account × TokenPayload) :=
  match email, password with
  | none, _ => Except.error (AppErr.unauthorized "Email and password are required")
  | _, none => Except.error (AppErr.unauthorized "Email and password are required")
  | some e, some p =>
    match findUserByEmail users e with
    | none => Except.error (AppErr.unauthorized "Invalid email or password")
    | some user =>
      if verifyPassword p user.password = false then
        Except.error (AppErr.unauthorized "Invalid email or password")
      else
        let mfaGate : Except AppErr Unit :=
          if user.mfaEnabled then
            match user.mfaSecret with
            | none => Except.error (AppErr.unauthorized "MFA is misconfigured for this account")
            | some secret =>
              match mfaCode with
              | none => Except.error (AppErr.unauthorized "MFA code required")
              | some code =>
                if totpVerifyCode secret code now then Except.ok ()
                else Except.error (AppErr.unauthorized "Invalid MFA code")
          else Except.ok ()
        match mfaGate with
        | Except.error err => Except.error err
        | Except.ok _ =>
          match findAccountById accounts user.accountId with
          | none => Except.error (AppErr.notFound "Account not found")
          | some account =>
            Except.ok (user, account,
              { userId := user.id, accountId := account.id,
                email := user.email, role := user.role })

/-- AuthService.resetPassword: hash the presented token, look the user up by
the stored hash (Unauthorized on a miss), store the new password hash while
clearing both reset fields, fetch the account, and issue a fresh token. -/
def resetPassword (users : UserStore) (accounts : List Account)
    (token newPassword : String) (now : Int) :
    Except AppErr (User × Account × TokenPayload × UserStore) :=
  match findUserDocByResetToken users (sha256Hex token) with
  | none => Except.error (AppErr.unauthorized "Invalid or expired password reset token")
  | some doc =>
    let upd : UserUpdate :=
      { email := none
        password := some (hashPassword newPassword)
        passwordResetToken := some none
        passwordResetExpires := some none }
    match updateUser users doc.id upd now with
    | Except.error e => Except.error e
    | Except.ok (updatedUser, users2) =>
      match findAccountById accounts updatedUser.accountId with
      | none => Except.error (AppErr.notFound "Account not found")
      | some account =>
        Except.ok (updatedUser, account,
          { userId := updatedUser.id, accountId := account.id,
            email := updatedUser.email, role := updatedUser.role }, users2)

/-- A BullMQ job id: either an explicitly supplied string key or an
auto-generated id from the queue counter (adds without a jobId option). -/
inductive JobId where
  | custom (s : String)
  | auto (n : Nat)
deriving DecidableEq, Repr

/-- The payload of a trial-expiration job. -/
structure JobData where
  accountId : String
  subscriptionId : String
  trialEndDate : Int
deriving DecidableEq, Repr

/-- A pending queue entry. -/
structure QJob where
  id : JobId
  data : JobData
  delay : Int
deriving DecidableEq, Repr

/-- The whole modelled system state: user, account and subscription stores
with their fresh-id counters, and the trial-expiration queue with the
auto-id counter. -/
structure Sys where
  users : UserStore
  accounts : List Account
  nextAccId : Nat
  subs : List Subscription
  nextSubId : Nat
  queue : List QJob
  nextAuto : Nat
deriving DecidableEq, Repr

/-- BullMQ add with an explicit jobId: deduplicated, a no-op while a pending
job with the same id exists. -/
def addJobWithId (s : Sys) (jid : String) (data : JobData) (delay : Int) : Sys :=
  if s.queue.any (fun j => j.id = JobId.custom jid) then s
  else { s with queue := s.queue ++ [{ id := JobId.custom jid, data := data, delay := delay }] }

/-- BullMQ add without a jobId: the job receives a fresh auto-generated id. -/
def addJobAuto (s : Sys) (data : JobData) (delay : Int) : Sys :=
  { s with queue := s.queue ++ [{ id := JobId.auto s.nextAuto, data := data, delay := delay }],
           nextAuto := s.nextAuto + 1 }

/-- The deterministic job key used by scheduleTrialExpiration and
cancelTrialExpiration. -/
def trialJobKey (accountId : String) : String :=
  "trial-expiration-" ++ accountId

/-- scheduleTrialExpiration (trialExpiration.job.ts): delay clamped at zero,
enqueued under the deterministic per-account job id. -/
def scheduleTrialExpiration (s : Sys) (accountId subscriptionId : String)
    (trialEndDate now : Int) : Sys :=
  addJobWithId s (trialJobKey accountId)
    { accountId := accountId, subscriptionId := subscriptionId, trialEndDate := trialEndDate }
    (max 0 (trialEndDate - now))

/-- Remove the first pending job with the given id, if any. -/
def removeJob : List QJob → JobId → List QJob
  | [], _ => []
  | j :: rest, jid => if j.id = jid then rest else j :: removeJob rest jid

/-- cancelTrialExpiration: look the job up by its deterministic key and
remove it when present. -/
def cancelTrialExpiration (s : Sys) (accountId : String) : Sys :=
  { s with queue := removeJob s.queue (JobId.custom (trialJobKey accountId)) }

/-- What a completed trial-expiration job reported. -/
inductive JobOutcome where
  | rescheduled
  | alreadyProcessed
  | notExpired
  | downgraded
deriving DecidableEq, Repr

/-- processTrialExpiration (the worker body): reschedule when invoked before
the trial end carried in the job data (the replacement add passes no jobId),
re-fetch the live subscription (thrown Error when missing), exit as already
processed unless the status is trialing or active, exit without action while
the live currentPeriodEnd is still in the future, and otherwise downgrade
the plan to free via SubscriptionService.updatePlan and end the account
trial.  Errors escape the catch block rethrown. -/
def processTrialExpiration (s : Sys) (data : JobData)
    (providerCall : Except AppErr ProviderUpdateResult) (now : Int) :
    Except AppErr (Sys × JobOutcome) :=
  if now < data.trialEndDate then
    Except.ok (addJobAuto s data (data.trialEndDate - now), JobOutcome.rescheduled)
  else
    match findSubByAccountId s.subs data.accountId with
    | none => Except.error (AppErr.generic ("Subscription not found for account " ++ data.accountId))
    | some sub =>
      if sub.status ≠ SubStatus.trialing ∧ sub.status ≠ SubStatus.active then
        Except.ok (s, JobOutcome.alreadyProcessed)
      else if now < sub.currentPeriodEnd then
        Except.ok (s, JobOutcome.notExpired)
      else
        match updatePlan s.subs data.subscriptionId PlanType.free providerCall now with
        | Except.error e => Except.error e
        | Except.ok (_, subs2) =>
          match endTrial s.accounts data.accountId now with
          | Except.error e => Except.error e
          | Except.ok (_, accounts2) =>
            Except.ok ({ s with subs := subs2, accounts := accounts2 }, JobOutcome.downgraded)

/-- A worker picking up a pending job: the job leaves the pending queue and
the processor runs; on failure the job goes to the failed set (removeOnFail
false retains it there), never back to the pending queue. -/
def runJob (s : Sys) (jid : JobId)
    (providerCall : Except AppErr ProviderUpdateResult) (now : Int) : Sys :=
  match s.queue.find? (fun j => j.id = jid) with
  | none => s
  | some j =>
    let s2 := { s with queue := removeJob s.queue jid }
    match processTrialExpiration s2 j.data providerCall now with
    | Except.ok (s3, _) => s3
    | Except.error _ => s2

/-- AuthService.register: duplicate-email guard (a plain thrown Error, not a
ConflictError), account creation with a 14-day trial, password hashing, user
creation with role owner, then the best-effort trial subscription block
(create locally with skipProvider true, move the period to the trial window,
schedule the expiration job) whose failure is caught and swallowed, and
finally token issue. -/
def register (s : Sys) (email password accountName : String)
    (subdomain firstName lastName : Option String) (now : Int) :
    Except AppErr (User × Account × TokenPayload × Sys) :=
  match findUserByEmail s.users email with
  | some _ => Except.error (AppErr.generic ("User with email " ++ email ++ " already exists"))
  | none =>
    let trialEnd := now + trialDays * msPerDay
    let account : Account :=
      { id := "acc" ++ toString s.nextAccId
        name := accountName
        subdomain := subdomain
        plan := PlanType.free
        status := AccStatus.active
        isTrial := true
        trialStartDate := some now
        trialEndDate := some trialEnd
        createdAt := now
        updatedAt := now }
    let s1 : Sys := { s with accounts := s.accounts ++ [account], nextAccId := s.nextAccId + 1 }
    match createUser s1.users
      { accountId := account.id
        email := email
        password := hashPassword password
        role := Role.owner
        firstName := firstName
        lastName := lastName
        createdAt := now
        updatedAt := now } with
    | Except.error e => Except.error e
    | Except.ok (user, users2) =>
      let s2 : Sys := { s1 with users := users2 }
      let s3 : Sys :=
        match createSubscription s2.subs s2.nextSubId account.id PlanType.pro "stripe" true
          (Except.error (AppErr.generic "unused: provider skipped")) now with
        | Except.error _ => s2
        | Except.ok (sub, subs2, nextSubId2) =>
          let subs3 := updateSubList subs2 sub.id (fun x =>
            { x with status := SubStatus.trialing,
                     currentPeriodStart := now,
                     currentPeriodEnd := trialEnd,
                     updatedAt := now })
          scheduleTrialExpiration
            { s2 with subs := subs3, nextSubId := nextSubId2 }
            account.id sub.id trialEnd now
      Except.ok (user, account,
        { userId := user.id, accountId := account.id, email := user.email, role := user.role }, s3)

/-- The queue states reachable from an arbitrary start with an empty pending
queue, under scheduling, cancellation, and worker execution. -/
inductive Reachable : Sys → Prop where
  | init (users : UserStore) (accounts : List Account) (nextAccId : Nat)
      (subs : List Subscription) (nextSubId : Nat) (nextAuto : Nat) :
      Reachable { users := users, accounts := accounts, nextAccId := nextAccId,
                  subs := subs, nextSubId := nextSubId, queue := [], nextAuto := nextAuto }
  | schedule {s : Sys} (accountId subscriptionId : String) (trialEndDate now : Int) :
      Reachable s → Reachable (scheduleTrialExpiration s accountId subscriptionId trialEndDate now)
  | cancel {s : Sys} (accountId : String) :
      Reachable s → Reachable (cancelTrialExpiration s accountId)
  | run {s : Sys} (jid : JobId) (providerCall : Except AppErr ProviderUpdateResult) (now : Int) :
      Reachable s → Reachable (runJob s jid providerCall now)

end SaasKit

namespace SaasKit

def emptySys : Sys :=
  { users := { docs := [], nextUid := 0 }, accounts := [], nextAccId := 0,
    subs := [], nextSubId := 0, queue := [], nextAuto := 0 }

def noProviderCall : Except AppErr ProviderUpdateResult :=
  Except.error (AppErr.generic "no provider call in this scenario")

deriving instance DecidableEq for Except

def sysAfterReg : Sys :=
  match register emptySys "a@x.com" "pw12345678" "Acme" none none none 0 with
  | Except.ok r => r.2.2.2
  | Except.error _ => emptySys

def sysAfterJob : Sys := runJob sysAfterReg (JobId.custom "trial-expiration-acc0") noProviderCall 1209600000


end SaasKit

namespace SaasKit

def mfaDoc : UserDoc :=
  { id := "u0", accountId := "acc0", email := "mfa@x.com",
    password := hashPassword "pw12345678", role := Role.member,
    firstName := none, lastName := none, company := none, phone := none,
    profilePicture := none, onboardingCompleted := false,
    passwordResetToken := none, passwordResetExpires := none,
    mfaEnabled := some true, mfaSecret := some "TOTPSECRET",
    createdAt := 0, updatedAt := 0 }

def mfaAccount : Account :=
  { id := "acc0", name := "Acme", subdomain := none, plan := PlanType.free,
    status := AccStatus.active, isTrial := false, trialStartDate := none,
    trialEndDate := none, createdAt := 0, updatedAt := 0 }

def resumeSub : Subscription :=
  { id := "sub7", accountId := "acc7", planType := PlanType.pro,
    status := SubStatus.cancelled, currentPeriodStart := 0, currentPeriodEnd := 100,
    cancelAtPeriodEnd := false, cancelledAt := some 50,
    features := getDefaultFeatures PlanType.pro, paymentProvider := "stripe",
    providerSubscriptionId := some "strp_1", createdAt := 0, updatedAt := 0 }

def createdSubOf (r : Except AppErr (Subscription × List Subscription × Nat)) : Option Subscription :=
  match r with
  | Except.ok x => some x.1
  | Except.error _ => none

def s6a : Sys := scheduleTrialExpiration emptySys "acc1" "sub1" 100 0
def s6b : Sys := runJob s6a (JobId.custom (trialJobKey "acc1")) noProviderCall 50

def cancSub : Subscription := { resumeSub with accountId := "acc8", id := "sub8" }
def s8 : Sys := { emptySys with subs := [cancSub] }
def s8b : Sys := { emptySys with subs := [{ cancSub with status := SubStatus.trialing, currentPeriodEnd := 500 }] }

end SaasKit

namespace SaasKit

/-- C1: refuted end to end.  register builds the spec scenario exactly
(account acc0 on trial, subscription sub0 with plan pro and status trialing,
payment provider set to the local sentinel, expiration job scheduled for
day 14), but running the job at day 14 throws: updatePlan resolves the
payment provider for the stored name local, which is never registered, so
the downgrade and endTrial are never reached and the job fails with the
rethrown Error, leaving planType pro, status trialing and isTrial true. -/
theorem trialExpirationJob_fails_on_local_provider :
  (register emptySys "a@x.com" "pw12345678" "Acme" none none none 0).isOk = true ∧
  (findSubByAccountId sysAfterReg.subs "acc0").map (fun x => (x.planType, x.status, x.paymentProvider))
    = some (PlanType.pro, SubStatus.trialing, "local") ∧
  (findAccountById sysAfterReg.accounts "acc0").map (fun a => a.isTrial) = some true ∧
  sysAfterReg.queue = [QJob.mk (JobId.custom (trialJobKey "acc0")) (JobData.mk "acc0" "sub0" 1209600000) 1209600000] ∧
  processTrialExpiration sysAfterReg (JobData.mk "acc0" "sub0" 1209600000) noProviderCall 1209600000
    = Except.error (AppErr.generic "Payment provider local is not registered") ∧
  (findSubByAccountId sysAfterJob.subs "acc0").map (fun x => (x.planType, x.status))
    = some (PlanType.pro, SubStatus.trialing) ∧
  (findAccountById sysAfterJob.accounts "acc0").map (fun a => a.isTrial) = some true := by
  decide

/-- C2: refuted at the failing input.  The stored document has mfaEnabled
true and an MFA secret, yet login with the correct password and no mfaCode
succeeds and issues a token, because UserRepository.documentToModel never
maps mfaEnabled or mfaSecret, so the User consulted by the MFA branch always
carries mfaEnabled false. -/
theorem loginWithPassword_mfa_enabled_bypassed :
  mfaDoc.mfaEnabled = some true ∧
  loginWithPassword { docs := [mfaDoc], nextUid := 1 } [mfaAccount]
      (some "mfa@x.com") (some "pw12345678") none 0
    = Except.ok (documentToModel mfaDoc, mfaAccount,
        TokenPayload.mk "u0" "acc0" "mfa@x.com" Role.member) := by
  decide

/-- C5 counterexample: a second register with an already-registered email
fails with the plain generic Error thrown by AuthService.register, not with
a ConflictError, so the claim as stated is false. -/
theorem register_duplicate_email_error_not_conflict :
  register sysAfterReg "a@x.com" "pw2" "Other" none none none 5
    = Except.error (AppErr.generic "User with email a@x.com already exists") ∧
  AppErr.isConflict (AppErr.generic "User with email a@x.com already exists") = false := by
  decide

/-- C6 counterexample: after a job scheduled under the deterministic key is
picked up early, the replacement job it enqueues carries an auto-generated
id, so the reachable state s6b holds a pending trial-expiration job for
acc1 that is not stored under trial-expiration-acc1. -/
theorem trialExpiration_reschedule_not_deterministic_id :
  s6b.queue = [QJob.mk (JobId.auto 0) (JobData.mk "acc1" "sub1" 100) 50] ∧
  decide (JobId.auto 0 = JobId.custom (trialJobKey "acc1")) = false ∧
  s6b.queue.any (fun j => j.id = JobId.custom (trialJobKey "acc1")) = false ∧
  s6b.queue.any (fun j => j.data.accountId = "acc1") = true := by
  decide

/-- C7 counterexample: with skipProvider false and a failing provider call,
the persisted subscription has paymentProvider equal to the requested
provider name stripe, not the local sentinel; only its status is trialing. -/
theorem createSubscription_fallback_not_sentinel :
  (createdSubOf (createSubscription [] 0 "acc1" PlanType.pro "stripe" false
      (Except.error (AppErr.generic "stripe outage")) 0)).map (fun s => s.paymentProvider)
    = some "stripe" ∧
  (createdSubOf (createSubscription [] 0 "acc1" PlanType.pro "stripe" false
      (Except.error (AppErr.generic "stripe outage")) 0)).map (fun s => s.status)
    = some SubStatus.trialing ∧
  decide (("stripe" : String) = "local") = false := by
  decide

/-- C9: resumeSubscription throws ConflictError whenever the subscription
exists with cancelAtPeriodEnd false, regardless of its status, before any
provider resolution or store update takes place (an error result carries no
updated store, so the record is unchanged). -/
theorem resumeSubscription_conflict_not_cancelled :
  ∀ (subs : List Subscription) (id : String) (pc : Except AppErr ProviderResumeResult)
    (now : Int) (sub : Subscription),
    findSubById subs id = some sub → sub.cancelAtPeriodEnd = false →
    resumeSubscription subs id pc now = Except.error (AppErr.conflict "Subscription is not cancelled") := by
  intro subs id pc now sub hfind hcap
  unfold resumeSubscription
  rw [hfind]
  simp [hcap]

/-- C9 witness: a concrete cancelled subscription with cancelAtPeriodEnd
false makes resumeSubscription fail with ConflictError. -/
theorem resumeSubscription_conflict_witness :
  findSubById [resumeSub] "sub7" = some resumeSub ∧
  resumeSub.cancelAtPeriodEnd = false ∧
  resumeSubscription [resumeSub] "sub7"
      (Except.ok (ProviderResumeResult.mk SubStatus.active false)) 200
    = Except.error (AppErr.conflict "Subscription is not cancelled") :=
  ⟨by decide, by decide,
    resumeSubscription_conflict_not_cancelled [resumeSub] "sub7"
      (Except.ok (ProviderResumeResult.mk SubStatus.active false)) 200 resumeSub
      (by decide) (by decide)⟩

/-- C8: the defensive re-checks of processTrialExpiration.  When the live
subscription is in neither trialing nor active status the job completes as
already processed with the state untouched; when the status is trialing or
active but the live currentPeriodEnd is still in the future, the job
completes without any downgrade, again with the state untouched. -/
theorem processTrialExpiration_defensive_noops :
  (∀ (s : Sys) (data : JobData) (pc : Except AppErr ProviderUpdateResult) (now : Int)
     (sub : Subscription),
     findSubByAccountId s.subs data.accountId = some sub →
     data.trialEndDate ≤ now →
     sub.status ≠ SubStatus.trialing → sub.status ≠ SubStatus.active →
     processTrialExpiration s data pc now = Except.ok (s, JobOutcome.alreadyProcessed)) ∧
  (∀ (s : Sys) (data : JobData) (pc : Except AppErr ProviderUpdateResult) (now : Int)
     (sub : Subscription),
     findSubByAccountId s.subs data.accountId = some sub →
     data.trialEndDate ≤ now →
     (sub.status = SubStatus.trialing ∨ sub.status = SubStatus.active) →
     now < sub.currentPeriodEnd →
     processTrialExpiration s data pc now = Except.ok (s, JobOutcome.notExpired)) := by
  constructor
  · intro s data pc now sub hfind hle hnt hna
    unfold processTrialExpiration
    rw [if_neg (by omega), hfind]
    simp [hnt, hna]
  · intro s data pc now sub hfind hle hst hcpe
    unfold processTrialExpiration
    rw [if_neg (by omega), hfind]
    rcases hst with h | h <;> simp [h, hcpe]

/-- C8 witness: a cancelled subscription is left untouched, and a trialing
subscription whose period end lies in the future is not downgraded. -/
theorem processTrialExpiration_defensive_noops_witness :
  findSubByAccountId s8.subs "acc8" = some cancSub ∧
  processTrialExpiration s8 (JobData.mk "acc8" "sub8" 40) noProviderCall 60
    = Except.ok (s8, JobOutcome.alreadyProcessed) ∧
  processTrialExpiration s8b (JobData.mk "acc8" "sub8" 40) noProviderCall 60
    = Except.ok (s8b, JobOutcome.notExpired) :=
  ⟨by decide,
   processTrialExpiration_defensive_noops.1 s8 (JobData.mk "acc8" "sub8" 40)
     noProviderCall 60 cancSub (by decide) (by decide) (by decide) (by decide),
   processTrialExpiration_defensive_noops.2 s8b (JobData.mk "acc8" "sub8" 40)
     noProviderCall 60 { cancSub with status := SubStatus.trialing, currentPeriodEnd := 500 }
     (by decide) (by decide) (Or.inl (by decide)) (by decide)⟩

end SaasKit

namespace SaasKit

/-- A concrete trial account used to instantiate the trial-state theorem. -/
def trialAcc : Account :=
  { id := "acc9", name := "Trialer", subdomain := none, plan := PlanType.free,
    status := AccStatus.active, isTrial := true, trialStartDate := some 0,
    trialEndDate := some 100, createdAt := 0, updatedAt := 0 }

/-- C10: for every account on trial with a trial end date, the remaining-days
computation is nonnegative and hits zero exactly once the end date is
reached, and the active/expired observers split all such states in two. -/
theorem account_trial_state_properties :
  ∀ (a : Account) (now e : Int), a.isTrial = true → a.trialEndDate = some e →
    0 ≤ a.getTrialDaysRemaining now ∧
    (a.getTrialDaysRemaining now = 0 ↔ e ≤ now) ∧
    ¬(a.isTrialActive now = true ∧ a.isTrialExpired now = true) ∧
    (a.isTrialActive now = true ∨ a.isTrialExpired now = true) := by
  intro a now e hT hE
  simp only [Account.getTrialDaysRemaining, Account.isTrialActive, Account.isTrialExpired,
    hT, hE, if_true, ceilDiv, msPerDay, decide_eq_true_eq]
  omega

/-- C10 witness: the trial-state properties instantiated at a concrete
account thirty milliseconds before its trial end. -/
theorem account_trial_state_properties_witness :
  trialAcc.isTrial = true ∧ trialAcc.trialEndDate = some 100 ∧
  0 ≤ trialAcc.getTrialDaysRemaining 30 ∧
  (trialAcc.isTrialActive 30 = true ∨ trialAcc.isTrialExpired 30 = true) :=
  ⟨by decide, by decide,
   (account_trial_state_properties trialAcc 30 100 (by decide) (by decide)).1,
   (account_trial_state_properties trialAcc 30 100 (by decide) (by decide)).2.2.2⟩

end SaasKit

namespace SaasKit

/-- The security-sensitive fields a repository-returned User never carries. -/
def strippedSecurityFields (u : User) : Prop :=
  u.mfaEnabled = false ∧ u.mfaSecret = none ∧
  u.passwordResetToken = none ∧ u.passwordResetExpires = none

instance (u : User) : Decidable (strippedSecurityFields u) := by
  unfold strippedSecurityFields
  infer_instance

/-- Every document mapped through UserRepository.documentToModel is
stripped, whatever the stored values were. -/
theorem documentToModel_stripped (doc : UserDoc) :
    strippedSecurityFields (documentToModel doc) :=
  ⟨rfl, rfl, rfl, rfl⟩

/-- C4: every User value produced by the UserRepository operations findById,
findByEmail, findAll, create and update carries mfaEnabled false and no
mfaSecret, passwordResetToken or passwordResetExpires, regardless of the
stored document contents, because every operation returns through
documentToModel, which does not map those fields. -/
theorem userRepository_returns_stripped_users :
  (∀ (store : UserStore) (id : String) (u : User),
     findUserById store id = some u → strippedSecurityFields u) ∧
  (∀ (store : UserStore) (email : String) (u : User),
     findUserByEmail store email = some u → strippedSecurityFields u) ∧
  (∀ (store : UserStore) (u : User),
     u ∈ findAllUsers store → strippedSecurityFields u) ∧
  (∀ (store : UserStore) (c : UserCreate) (u : User) (store2 : UserStore),
     createUser store c = Except.ok (u, store2) → strippedSecurityFields u) ∧
  (∀ (store : UserStore) (id : String) (upd : UserUpdate) (now : Int)
     (u : User) (store2 : UserStore),
     updateUser store id upd now = Except.ok (u, store2) → strippedSecurityFields u) := by
  refine ⟨?_, ?_, ?_, ?_, ?_⟩
  · intro store id u h
    unfold findUserById at h
    rw [Option.map_eq_some'] at h
    obtain ⟨doc, _, hd⟩ := h
    exact hd ▸ documentToModel_stripped doc
  · intro store email u h
    unfold findUserByEmail at h
    rw [Option.map_eq_some'] at h
    obtain ⟨doc, _, hd⟩ := h
    exact hd ▸ documentToModel_stripped doc
  · intro store u h
    unfold findAllUsers at h
    rw [List.mem_map] at h
    obtain ⟨doc, _, hd⟩ := h
    exact hd ▸ documentToModel_stripped doc
  · intro store c u store2 h
    unfold createUser at h
    split at h
    · cases h
    · rw [Except.ok.injEq, Prod.mk.injEq] at h
      exact h.1 ▸ documentToModel_stripped _
  · intro store id upd now u store2 h
    unfold updateUser at h
    split at h
    · cases h
    · split at h
      · cases h
      · cases h
        exact documentToModel_stripped _

/-- C4 witness: the invariant instantiated at a concrete store whose
document holds an MFA secret, an enabled flag, and a reset token. -/
theorem userRepository_returns_stripped_users_witness :
  findUserByEmail { docs := [{ mfaDoc with passwordResetToken := some "h", passwordResetExpires := some 9 }], nextUid := 1 } "mfa@x.com"
    = some (documentToModel { mfaDoc with passwordResetToken := some "h", passwordResetExpires := some 9 }) ∧
  strippedSecurityFields (documentToModel { mfaDoc with passwordResetToken := some "h", passwordResetExpires := some 9 }) :=
  ⟨by decide,
   userRepository_returns_stripped_users.2.1
     { docs := [{ mfaDoc with passwordResetToken := some "h", passwordResetExpires := some 9 }], nextUid := 1 }
     "mfa@x.com" (documentToModel { mfaDoc with passwordResetToken := some "h", passwordResetExpires := some 9 })
     (by decide)⟩

end SaasKit

namespace SaasKit

/-- The subscription record persisted by createSubscription when no
provider result exists: status trialing, period bounds defaulted to now. -/
def localFallbackSub (accountId : String) (planType : PlanType)
    (providerName : String) (nextSubId : Nat) (now : Int) : Subscription :=
  { id := "sub" ++ toString nextSubId, accountId := accountId,
    planType := planType, status := SubStatus.trialing,
    currentPeriodStart := now, currentPeriodEnd := now,
    cancelAtPeriodEnd := false, cancelledAt := none,
    features := getDefaultFeatures planType,
    paymentProvider := providerName, providerSubscriptionId := none,
    createdAt := now, updatedAt := now }

/-- C7 amended: with skipProvider false and a failing provider call, the
operation still succeeds and persists a locally-tracked subscription
(status trialing, period bounds defaulted to now, no provider subscription
id), but its paymentProvider field keeps the requested provider name; the
local sentinel is written only on the skipProvider path. -/
theorem createSubscription_provider_failure_fallback :
  ∀ (subs : List Subscription) (nextSubId : Nat) (accountId : String)
    (planType : PlanType) (providerName : String) (e : AppErr) (now : Int),
    findSubByAccountId subs accountId = none →
    createSubscription subs nextSubId accountId planType providerName false
        (Except.error e) now
      = Except.ok (localFallbackSub accountId planType providerName nextSubId now,
          subs ++ [localFallbackSub accountId planType providerName nextSubId now],
          nextSubId + 1) := by
  intro subs nextSubId accountId planType providerName e now hnone
  unfold createSubscription localFallbackSub
  rw [hnone]
  cases hgp : getProviderCheck providerName <;> simp [hgp, Bind.bind, Except.bind]

/-- C7 witness: the fallback instantiated at an empty store with a stripe
outage. -/
theorem createSubscription_provider_failure_fallback_witness :
  findSubByAccountId [] "acc1" = none ∧
  createSubscription [] 0 "acc1" PlanType.pro "stripe" false
      (Except.error (AppErr.generic "stripe outage")) 0
    = Except.ok (localFallbackSub "acc1" PlanType.pro "stripe" 0 0,
        [localFallbackSub "acc1" PlanType.pro "stripe" 0 0], 1) :=
  ⟨by decide,
   createSubscription_provider_failure_fallback [] 0 "acc1" PlanType.pro "stripe"
     (AppErr.generic "stripe outage") 0 (by decide)⟩

end SaasKit

namespace SaasKit

/-- The user document persisted by a successful register call. -/
def registeredDoc (s : Sys) (email pw : String) (fn ln : Option String) (now : Int) : UserDoc :=
  { id := "u" ++ toString s.users.nextUid
    accountId := "acc" ++ toString s.nextAccId
    email := lowerStr email
    password := hashPassword pw
    role := Role.owner
    firstName := fn
    lastName := ln
    company := none
    phone := none
    profilePicture := none
    onboardingCompleted := false
    passwordResetToken := none
    passwordResetExpires := none
    mfaEnabled := none
    mfaSecret := none
    createdAt := now
    updatedAt := now }

/-- Scheduling touches only the queue. -/
theorem scheduleTrialExpiration_users (x : Sys) (a b : String) (e n : Int) :
    (scheduleTrialExpiration x a b e n).users = x.users := by
  unfold scheduleTrialExpiration addJobWithId
  split <;> rfl

/-- A successful register implies the email was free beforehand and appends
exactly the registered document to the user store. -/
theorem register_ok_users {s : Sys} {email pw name : String}
    {sd fn ln : Option String} {now : Int} {r : User × Account × TokenPayload × Sys}
    (h : register s email pw name sd fn ln now = Except.ok r) :
    findUserDocByEmail s.users email = none ∧
    r.2.2.2.users.docs = s.users.docs ++ [registeredDoc s email pw fn ln now] := by
  unfold register at h
  split at h
  · cases h
  · rename_i hfe
    have hfd : findUserDocByEmail s.users email = none := by
      unfold findUserByEmail at hfe
      exact Option.map_eq_none'.mp hfe
    refine ⟨hfd, ?_⟩
    dsimp only at h
    have hcu : createUser s.users
        { accountId := "acc" ++ toString s.nextAccId, email := email,
          password := hashPassword pw, role := Role.owner,
          firstName := fn, lastName := ln, createdAt := now, updatedAt := now }
      = Except.ok (documentToModel (registeredDoc s email pw fn ln now),
          { docs := s.users.docs ++ [registeredDoc s email pw fn ln now],
            nextUid := s.users.nextUid + 1 }) := by
      unfold createUser registeredDoc
      rw [hfd]
    rw [hcu] at h
    cases h
    split
    · rfl
    · rw [scheduleTrialExpiration_users]

/-- C5 amended: once a register with an email has succeeded, every
subsequent register with the same email (compared case-insensitively) fails
before any record is created, but with the plain generic Error thrown by
AuthService.register (HTTP 500), not a ConflictError; the ConflictError in
UserRepository.create sits behind the service-level check and is never
reached from register. -/
theorem register_duplicate_email_fails_generic :
  ∀ (s : Sys) (email pw name : String) (sd fn ln : Option String) (now : Int)
    (u : User) (acc : Account) (tk : TokenPayload) (s2 : Sys),
    register s email pw name sd fn ln now = Except.ok (u, acc, tk, s2) →
    ∀ (email2 pw2 name2 : String) (sd2 fn2 ln2 : Option String) (now2 : Int),
      lowerStr email2 = lowerStr email →
      register s2 email2 pw2 name2 sd2 fn2 ln2 now2
        = Except.error (AppErr.generic ("User with email " ++ email2 ++ " already exists")) := by
  intro s email pw name sd fn ln now u acc tk s2 h email2 pw2 name2 sd2 fn2 ln2 now2 heq
  obtain ⟨hfd, husers⟩ := register_ok_users h
  have hfind : findUserByEmail s2.users email2
      = some (documentToModel (registeredDoc s email pw fn ln now)) := by
    unfold findUserByEmail findUserDocByEmail
    unfold findUserDocByEmail at hfd
    rw [husers, heq, List.find?_append, hfd]
    simp [registeredDoc]
  unfold register
  rw [hfind]

end SaasKit

namespace SaasKit

/-- The User returned by the fixture registration. -/
def regUser : User := documentToModel (registeredDoc emptySys "a@x.com" "pw12345678" none none 0)

/-- The Account created by the fixture registration. -/
def regAccount : Account :=
  { id := "acc0", name := "Acme", subdomain := none, plan := PlanType.free,
    status := AccStatus.active, isTrial := true, trialStartDate := some 0,
    trialEndDate := some 1209600000, createdAt := 0, updatedAt := 0 }

/-- The token payload issued by the fixture registration. -/
def regToken : TokenPayload :=
  { userId := "u0", accountId := "acc0", email := "a@x.com", role := Role.owner }

/-- C5 amended witness: after a successful registration, a case-variant of
the same email is rejected with the generic duplicate-user error. -/
theorem register_duplicate_email_fails_generic_witness :
  register emptySys "a@x.com" "pw12345678" "Acme" none none none 0
    = Except.ok (regUser, regAccount, regToken, sysAfterReg) ∧
  lowerStr "A@x.COM" = lowerStr "a@x.com" ∧
  register sysAfterReg "A@x.COM" "pw2" "Other" none none none 5
    = Except.error (AppErr.generic ("User with email " ++ "A@x.COM" ++ " already exists")) :=
  ⟨by decide, by decide,
   register_duplicate_email_fails_generic emptySys "a@x.com" "pw12345678" "Acme"
     none none none 0 regUser regAccount regToken sysAfterReg (by decide)
     "A@x.COM" "pw2" "Other" none none none 5 (by decide)⟩

end SaasKit

namespace SaasKit

/-- Number of pending jobs carrying a given job id. -/
def countId (q : List QJob) (jid : JobId) : Nat :=
  q.countP (fun j => j.id = jid)

theorem countId_append (q1 q2 : List QJob) (jid : JobId) :
    countId (q1 ++ q2) jid = countId q1 jid + countId q2 jid :=
  List.countP_append _ _ _

theorem countId_removeJob_le (q : List QJob) (jid2 jid : JobId) :
    countId (removeJob q jid2) jid ≤ countId q jid := by
  induction q with
  | nil => exact Nat.le_refl _
  | cons j rest ih =>
    unfold removeJob
    split
    · simp only [countId, List.countP_cons]
      omega
    · simp only [countId, List.countP_cons] at ih ⊢
      omega

theorem not_any_countId_zero (q : List QJob) (jid : JobId)
    (h : q.any (fun j => j.id = jid) = false) : countId q jid = 0 := by
  rw [countId, List.countP_eq_zero]
  exact fun a ha => by simpa using List.any_eq_false.mp h a ha

/-- A successful job-processor run either leaves the pending queue alone or
appends the single auto-id replacement job. -/
theorem processTrialExpiration_queue_cases
    {s : Sys} {data : JobData} {pc : Except AppErr ProviderUpdateResult}
    {now : Int} {s2 : Sys} {o : JobOutcome}
    (h : processTrialExpiration s data pc now = Except.ok (s2, o)) :
    s2.queue = s.queue ∨
    s2.queue = s.queue ++ [QJob.mk (JobId.auto s.nextAuto) data (data.trialEndDate - now)] := by
  unfold processTrialExpiration at h
  split at h
  · cases h
    right
    rfl
  · split at h
    · cases h
    · split at h
      · cases h
        left
        rfl
      · split at h
        · cases h
          left
          rfl
        · split at h
          · cases h
          · split at h
            · cases h
            · cases h
              left
              rfl

/-- C6 amended: in every reachable queue state there is at most one pending
job under each deterministic custom job id (so in particular at most one
under trial-expiration-(accountId) per account), because adds carrying an
explicit job id are deduplicated; but the replacement job enqueued when the
processor runs early is added without a job id and therefore carries a
fresh auto-generated id, not the deterministic key. -/
theorem trialExpiration_deterministic_id_unique :
  (∀ (s : Sys), Reachable s → ∀ (key : String), countId s.queue (JobId.custom key) ≤ 1) ∧
  (∀ (s : Sys) (data : JobData) (pc : Except AppErr ProviderUpdateResult)
     (now : Int) (s2 : Sys) (o : JobOutcome),
     now < data.trialEndDate →
     processTrialExpiration s data pc now = Except.ok (s2, o) →
     s2.queue = s.queue ++ [QJob.mk (JobId.auto s.nextAuto) data (data.trialEndDate - now)]) := by
  constructor
  · intro s hr
    induction hr with
    | init users accounts nextAccId subs nextSubId nextAuto =>
      intro key
      simp [countId]
    | schedule a b e n _ ih =>
      intro key
      unfold scheduleTrialExpiration addJobWithId
      split
      · exact ih key
      · rename_i hany
        show countId (_ ++ [QJob.mk (JobId.custom (trialJobKey a)) _ _]) (JobId.custom key) ≤ 1
        rw [countId_append]
        by_cases hk : key = trialJobKey a
        · subst hk
          rw [not_any_countId_zero _ _ (Bool.eq_false_iff.mpr hany)]
          simp [countId]
        · have h1 : countId [QJob.mk (JobId.custom (trialJobKey a))
              (JobData.mk a b e) (max 0 (e - n))] (JobId.custom key) = 0 := by
            simp [countId, Ne.symm hk]
          rw [h1]
          simpa using ih key
    | cancel a _ ih =>
      intro key
      unfold cancelTrialExpiration
      exact Nat.le_trans (countId_removeJob_le _ _ _) (ih key)
    | run jid pc n _ ih =>
      intro key
      unfold runJob
      split
      · exact ih key
      · dsimp only
        split
        · rename_i s3 o hp
          rcases processTrialExpiration_queue_cases hp with hq | hq
          · rw [hq]
            exact Nat.le_trans (countId_removeJob_le _ _ _) (ih key)
          · rw [hq, countId_append]
            have h1 : ∀ (d : JobData) (m : Nat) (dl : Int),
                countId [QJob.mk (JobId.auto m) d dl] (JobId.custom key) = 0 := by
              intro d m dl
              simp [countId]
            rw [h1]
            simpa using Nat.le_trans (countId_removeJob_le _ _ _) (ih key)
        · exact Nat.le_trans (countId_removeJob_le _ _ _) (ih key)
  · intro s data pc now s2 o hlt hp
    unfold processTrialExpiration at hp
    rw [if_pos hlt] at hp
    cases hp
    rfl

end SaasKit

namespace SaasKit

/-- The state after the early-run reschedule in the C6 scenario. -/
def rescheduledSys : Sys :=
  { emptySys with queue := [QJob.mk (JobId.auto 0) (JobData.mk "acc1" "sub1" 100) 50],
                  nextAuto := 1 }

/-- C6 amended witness: the uniqueness bound instantiated at the reachable
scheduled state, and the auto-id shape of a concrete early reschedule. -/
theorem trialExpiration_deterministic_id_unique_witness :
  countId s6a.queue (JobId.custom "trial-expiration-acc1") ≤ 1 ∧
  rescheduledSys.queue = emptySys.queue
    ++ [QJob.mk (JobId.auto emptySys.nextAuto) (JobData.mk "acc1" "sub1" 100) (100 - 50)] :=
  ⟨trialExpiration_deterministic_id_unique.1 s6a
     (Reachable.schedule "acc1" "sub1" 100 0
       (Reachable.init { docs := [], nextUid := 0 } [] 0 [] 0 0)) "trial-expiration-acc1",
   trialExpiration_deterministic_id_unique.2 emptySys (JobData.mk "acc1" "sub1" 100)
     noProviderCall 50 rescheduledSys JobOutcome.rescheduled (by decide) (by decide)⟩

end SaasKit

namespace SaasKit

/-- When no stored document carries the token hash, the reset lookup is
empty. -/
theorem findResetToken_none {store : UserStore} {hash : String}
    (h : ∀ d ∈ store.docs, d.passwordResetToken ≠ some hash) :
    findUserDocByResetToken store hash = none := by
  unfold findUserDocByResetToken
  rw [List.find?_eq_none]
  intro x hx
  simpa using h x hx

/-- resetPassword on a token whose hash matches no stored document. -/
theorem resetPassword_no_match {users : UserStore} {accounts : List Account}
    {token pw : String} {now : Int}
    (h : ∀ d ∈ users.docs, d.passwordResetToken ≠ some (sha256Hex token)) :
    resetPassword users accounts token pw now
      = Except.error (AppErr.unauthorized "Invalid or expired password reset token") := by
  unfold resetPassword
  rw [findResetToken_none h]

/-- The reset lookup returns the unique holder of the hash. -/
theorem findResetToken_unique {store : UserStore} {hash : String} {d : UserDoc}
    (hmem : d ∈ store.docs) (htok : d.passwordResetToken = some hash)
    (huniq : ∀ d2 ∈ store.docs, d2.passwordResetToken = some hash → d2 = d) :
    findUserDocByResetToken store hash = some d := by
  unfold findUserDocByResetToken
  obtain ⟨l, hl⟩ : ∃ l, l = store.docs := ⟨store.docs, rfl⟩
  rw [← hl] at hmem huniq ⊢
  clear hl
  induction l with
  | nil => cases hmem
  | cons a rest ih =>
    by_cases hpa : a.passwordResetToken = some hash
    · rw [List.find?_cons_of_pos _ (by simpa using hpa)]
      rw [huniq a (List.mem_cons_self a rest) hpa]
    · rw [List.find?_cons_of_neg _ (by simpa using hpa)]
      rcases List.mem_cons.mp hmem with h | h
      · exact absurd (h ▸ htok) hpa
      · exact ih (fun d2 h2 => huniq d2 (List.mem_cons_of_mem a h2)) h

/-- The id lookup returns the unique holder of the id. -/
theorem findDocById_unique {store : UserStore} {d : UserDoc}
    (hmem : d ∈ store.docs)
    (hid : ∀ d2 ∈ store.docs, d2.id = d.id → d2 = d) :
    findUserDocById store d.id = some d := by
  unfold findUserDocById
  obtain ⟨l, hl⟩ : ∃ l, l = store.docs := ⟨store.docs, rfl⟩
  rw [← hl] at hmem hid ⊢
  clear hl
  induction l with
  | nil => cases hmem
  | cons a rest ih =>
    by_cases hpa : a.id = d.id
    · rw [List.find?_cons_of_pos _ (by simpa using hpa)]
      rw [hid a (List.mem_cons_self a rest) hpa]
    · rw [List.find?_cons_of_neg _ (by simpa using hpa)]
      rcases List.mem_cons.mp hmem with h | h
      · exact absurd (h ▸ rfl) hpa
      · exact ih (fun d2 h2 => hid d2 (List.mem_cons_of_mem a h2)) h

/-- The store produced by a per-id in-place update. -/
def mapUpdateDocs (store : UserStore) (i : String) (upd : UserUpdate) (now : Int) : UserStore :=
  { store with docs := store.docs.map (fun x => if x.id = i then applyUserUpdate x upd now else x) }

/-- updateUser on a found document with no email change applies the update
in place. -/
theorem updateUser_found {store : UserStore} {d : UserDoc} {upd : UserUpdate} {now : Int}
    (hfind : findUserDocById store d.id = some d) (hne : upd.email = none) :
    updateUser store d.id upd now
      = Except.ok (documentToModel (applyUserUpdate d upd now), mapUpdateDocs store d.id upd now) := by
  unfold updateUser
  rw [hfind]
  have hc : emailConflictCheck store d upd = false := by
    unfold emailConflictCheck
    rw [hne]
  dsimp only
  rw [hc]
  rfl

/-- An id-preserving per-id rewrite commutes with the id lookup. -/
theorem find_id_map (l : List UserDoc) (i : String) (g : UserDoc → UserDoc)
    (hg : ∀ x, (g x).id = x.id) :
    (l.map (fun x => if x.id = i then g x else x)).find? (fun y => y.id = i)
      = (l.find? (fun y => y.id = i)).map (fun x => if x.id = i then g x else x) := by
  rw [List.find?_map]
  have : ((fun y : UserDoc => decide (y.id = i)) ∘ (fun x => if x.id = i then g x else x))
      = (fun y : UserDoc => decide (y.id = i)) := by
    funext y
    by_cases h : y.id = i <;> simp [h, hg]
  rw [this]

end SaasKit

namespace SaasKit

/-- The field update resetPassword issues on success. -/
def resetUpd (pw : String) : UserUpdate :=
  { email := none, password := some (hashPassword pw),
    passwordResetToken := some none, passwordResetExpires := some none }

/-- C3: resetPassword fails Unauthorized whenever no stored user holds the
hash of the presented token; and on a token held by exactly one stored user
(with stored ids unique and the owning account present) it succeeds, stores
the new password hash with both reset fields cleared, and a second call with
the same token then fails Unauthorized, giving single use.  The data-layer
lookup findByPasswordResetToken is modelled from the spec because only its
caller survives in the sources. -/
theorem resetPassword_unknown_and_single_use :
  (∀ (users : UserStore) (accounts : List Account) (token pw : String) (now : Int),
     (∀ d ∈ users.docs, d.passwordResetToken ≠ some (sha256Hex token)) →
     resetPassword users accounts token pw now
       = Except.error (AppErr.unauthorized "Invalid or expired password reset token")) ∧
  (∀ (users : UserStore) (accounts : List Account) (token pw pw2 : String)
     (now now2 : Int) (d : UserDoc) (acc : Account),
     d ∈ users.docs →
     d.passwordResetToken = some (sha256Hex token) →
     (∀ d2 ∈ users.docs, d2.passwordResetToken = some (sha256Hex token) → d2 = d) →
     (∀ d2 ∈ users.docs, d2.id = d.id → d2 = d) →
     findAccountById accounts d.accountId = some acc →
     resetPassword users accounts token pw now
       = Except.ok (documentToModel (applyUserUpdate d (resetUpd pw) now), acc,
           TokenPayload.mk d.id acc.id d.email d.role,
           mapUpdateDocs users d.id (resetUpd pw) now) ∧
     (documentToModel (applyUserUpdate d (resetUpd pw) now)).password = hashPassword pw ∧
     (∃ d2 : UserDoc,
        findUserDocById (mapUpdateDocs users d.id (resetUpd pw) now) d.id = some d2 ∧
        d2.password = hashPassword pw ∧ d2.passwordResetToken = none ∧
        d2.passwordResetExpires = none) ∧
     resetPassword (mapUpdateDocs users d.id (resetUpd pw) now) accounts token pw2 now2
       = Except.error (AppErr.unauthorized "Invalid or expired password reset token")) := by
  constructor
  · intro users accounts token pw now h
    exact resetPassword_no_match h
  · intro users accounts token pw pw2 now now2 d acc hmem htok huniq hid hacc
    have hfid : findUserDocById users d.id = some d := findDocById_unique hmem hid
    have hftok : findUserDocByResetToken users (sha256Hex token) = some d :=
      findResetToken_unique hmem htok huniq
    refine ⟨?_, rfl, ?_, ?_⟩
    · unfold resetPassword
      rw [hftok]
      dsimp only
      rw [updateUser_found hfid rfl]
      dsimp only
      rw [show ({ email := none, password := some (hashPassword pw), passwordResetToken := some none, passwordResetExpires := some none } : UserUpdate) = resetUpd pw from rfl]
      rw [show findAccountById accounts
          (documentToModel (applyUserUpdate d (resetUpd pw) now)).accountId = some acc from hacc]
      rfl
    · refine ⟨applyUserUpdate d (resetUpd pw) now, ?_, rfl, rfl, rfl⟩
      unfold findUserDocById mapUpdateDocs
      rw [find_id_map users.docs d.id (fun x => applyUserUpdate x (resetUpd pw) now) (fun x => rfl)]
      unfold findUserDocById at hfid
      rw [hfid]
      simp
    · apply resetPassword_no_match
      intro y hy
      rw [show (mapUpdateDocs users d.id (resetUpd pw) now).docs
          = users.docs.map (fun x => if x.id = d.id then applyUserUpdate x (resetUpd pw) now else x)
        from rfl, List.mem_map] at hy
      obtain ⟨x, hxmem, hfx⟩ := hy
      by_cases hxid : x.id = d.id
      · rw [← hfx, if_pos hxid]
        intro hcontra
        cases hcontra
      · rw [← hfx, if_neg hxid]
        intro hcontra
        exact hxid ((huniq x hxmem hcontra) ▸ rfl)

end SaasKit

namespace SaasKit

/-- A stored user holding a password-reset token hash. -/
def resetDoc : UserDoc :=
  { id := "u5", accountId := "acc5", email := "r@x.com",
    password := hashPassword "old", role := Role.member,
    firstName := none, lastName := none, company := none, phone := none,
    profilePicture := none, onboardingCompleted := false,
    passwordResetToken := some (sha256Hex "tok123"),
    passwordResetExpires := some 3600000,
    mfaEnabled := none, mfaSecret := none, createdAt := 0, updatedAt := 0 }

/-- The account owning resetDoc. -/
def resetAccount : Account :=
  { id := "acc5", name := "R", subdomain := none, plan := PlanType.free,
    status := AccStatus.active, isTrial := false, trialStartDate := none,
    trialEndDate := none, createdAt := 0, updatedAt := 0 }

/-- The user store of the reset scenario. -/
def resetStore : UserStore := { docs := [resetDoc], nextUid := 6 }

/-- C3 witness: a garbled token fails Unauthorized, the stored token resets
the password once (clearing both reset fields), and the same token is then
rejected. -/
theorem resetPassword_unknown_and_single_use_witness :
  (resetPassword resetStore [resetAccount] "garbled" "newpw" 7
    = Except.error (AppErr.unauthorized "Invalid or expired password reset token")) ∧
  (resetPassword resetStore [resetAccount] "tok123" "newpw" 7
    = Except.ok (documentToModel (applyUserUpdate resetDoc (resetUpd "newpw") 7), resetAccount,
        TokenPayload.mk resetDoc.id resetAccount.id resetDoc.email resetDoc.role,
        mapUpdateDocs resetStore resetDoc.id (resetUpd "newpw") 7) ∧
   (documentToModel (applyUserUpdate resetDoc (resetUpd "newpw") 7)).password = hashPassword "newpw" ∧
   (∃ d2 : UserDoc,
      findUserDocById (mapUpdateDocs resetStore resetDoc.id (resetUpd "newpw") 7) resetDoc.id = some d2 ∧
      d2.password = hashPassword "newpw" ∧ d2.passwordResetToken = none ∧
      d2.passwordResetExpires = none) ∧
   resetPassword (mapUpdateDocs resetStore resetDoc.id (resetUpd "newpw") 7) [resetAccount] "tok123" "again" 8
    = Except.error (AppErr.unauthorized "Invalid or expired password reset token")) :=
  ⟨resetPassword_unknown_and_single_use.1 resetStore [resetAccount] "garbled" "newpw" 7
     (by decide),
   resetPassword_unknown_and_single_use.2 resetStore [resetAccount] "tok123" "newpw" "again"
     7 8 resetDoc resetAccount (by decide) (by decide) (by decide) (by decide) (by decide)⟩

end SaasKit
